import Mathlib

/-!
Shallow embedding of `eden/scm/edenscm/ext/github/gh_submit.py`.

The module's operations all follow the same shape: build a parameter
dictionary, call `gh_cli.make_request`, and post-process the JSON-like
response. We embed the post-processing as total Lean functions over a
`Json` value model; Python dictionary subscripting (`d["k"]`), which
raises `KeyError`/`TypeError` on a missing key or a non-dict value, is
modelled by `Json.get : Json → String → Option Json`, and an operation
that would raise an uncaught exception is modelled by returning `none`.
The transport (`make_request`) is external: each embedded operation takes
the transport's `Result` as an argument; `create_pull_request`, whose
claims are about the outgoing request, instead takes the transport as an
oracle and also returns the list of requests it issues.
-/

/-- Model of the JSON-like values decoded from GitHub API responses
(Python `None`/`bool`/`int`/`str`/`list`/`dict`). -/
inductive Json where
  | null : Json
  | bool : Bool → Json
  | num : Int → Json
  | str : String → Json
  | arr : List Json → Json
  | obj : List (String × Json) → Json

/-- First-match association-list lookup, the model of Python dict lookup. -/
def lookupField : List (String × Json) → String → Option Json
  | [], _ => none
  | (k, v) :: rest, key => if k = key then some v else lookupField rest key

/-- Python subscripting `d[key]`: succeeds only on a dict that has the key;
`none` models the `KeyError`/`TypeError` that Python raises otherwise. -/
def Json.get : Json → String → Option Json
  | .obj fields, key => lookupField fields key
  | _, _ => none

/-- Python `x is None` on a decoded JSON value. -/
def Json.isNull : Json → Bool
  | .null => true
  | _ => false

/-- Python truthiness of a decoded JSON value (`if parent:`). -/
def Json.truthy : Json → Bool
  | .null => false
  | .bool b => b
  | .num n => n != 0
  | .str s => !s.isEmpty
  | .arr xs => !xs.isEmpty
  | .obj fs => !fs.isEmpty

/-- Coercion of a JSON value into the `str`-annotated dataclass fields.
On schema-conforming responses the value is always a `.str`; the other
arms only matter for ill-typed responses, which Python stores untouched. -/
def Json.toStr : Json → String
  | .str s => s
  | .null => "None"
  | .bool true => "True"
  | .bool false => "False"
  | .num n => toString n
  | .arr _ => "<arr>"
  | .obj _ => "<obj>"

/-- Coercion of a JSON value into the `bool`-annotated `is_fork` field.
On schema-conforming responses the value is always a `.bool`. -/
def Json.toBool : Json → Bool
  | .bool b => b
  | v => v.truthy

/-- Modelled from the spec: `Result<T>` of `ghstack.github_gh_cli` (the
transport collaborator, not under `src/`) — "exactly one of: a success
payload of type T, or an error value carrying a human-readable message". -/
inductive Result (α : Type) where
  | ok : α → Result α
  | error : String → Result α

/-- The `Repository` dataclass. It is recursive through `upstream`
(`Optional["Repository"]`), hence an inductive with explicit projections. -/
inductive Repository where
  | mk (id hostname owner name default_branch : String)
       (is_fork : Bool) (upstream : Option Repository)

def Repository.id : Repository → String
  | .mk i _ _ _ _ _ _ => i

def Repository.hostname : Repository → String
  | .mk _ h _ _ _ _ _ => h

def Repository.owner : Repository → String
  | .mk _ _ o _ _ _ _ => o

def Repository.name : Repository → String
  | .mk _ _ _ n _ _ _ => n

def Repository.default_branch : Repository → String
  | .mk _ _ _ _ b _ _ => b

def Repository.is_fork : Repository → Bool
  | .mk _ _ _ _ _ f _ => f

def Repository.upstream : Repository → Option Repository
  | .mk _ _ _ _ _ _ u => u

/-- `Repository.get_base_branch`: a dataclass instance is always truthy in
Python, so `if self.upstream:` tests presence of the optional field. -/
def Repository.get_base_branch (self : Repository) : String :=
  match self.upstream with
  | some u => u.default_branch
  | none => self.default_branch

/-- `Repository.get_upstream_owner_and_name`. -/
def Repository.get_upstream_owner_and_name (self : Repository) : String × String :=
  match self.upstream with
  | some u => (u.owner, u.name)
  | none => (self.owner, self.name)

/-- The URL interpolated into the no-default-branch error message:
`f"https://\x7bhostname\x7d/\x7bowner\x7d/\x7bname\x7d/new/main"`. -/
def initUrl (hostname owner name : String) : String :=
  "https://" ++ hostname ++ "/" ++ owner ++ "/" ++ name ++ "/new/main"

/-- The error message built by `_parse_repository_from_dict` when
`defaultBranchRef` is null. -/
def noBranchErrorMessage (hostname owner name : String) : String :=
  "This repository has no default branch. This is likely because it is empty.\n\nConsider using " ++
    initUrl hostname owner name ++ " to initialize your\nrepository.\n"

/-- `_parse_repository_from_dict(repo_obj, hostname, upstream)`.
`none` models a raised exception (missing key / non-dict subscript). -/
def _parse_repository_from_dict (repo_obj : Json) (hostname : String)
    (upstream : Option Repository := none) : Option (Result Repository) := do
  let ownerObj ← repo_obj.get "owner"
  let login ← ownerObj.get "login"
  let owner := login.toStr
  let nameVal ← repo_obj.get "name"
  let name := nameVal.toStr
  let branch_ref ← repo_obj.get "defaultBranchRef"
  if branch_ref.isNull then
    some (.error (noBranchErrorMessage hostname owner name))
  else do
    let idVal ← repo_obj.get "id"
    let branchName ← branch_ref.get "name"
    let isFork ← repo_obj.get "isFork"
    some (.ok (.mk idVal.toStr hostname owner name branchName.toStr isFork.toBool upstream))

/-- `get_repository(hostname, owner, name)`, applied to the transport's
result for the `GRAPHQL_GET_REPOSITORY` query. `owner`/`name` only enter
the outgoing request parameters, which this handler does not consume. -/
def get_repository (hostname : String) (result : Result Json) :
    Option (Result Repository) :=
  match result with
  | .error e => some (.error e)
  | .ok okVal => do
    let data ← okVal.get "data"
    let repo ← data.get "repository"
    let parent ← repo.get "parent"
    if parent.truthy then
      match _parse_repository_from_dict parent hostname with
      | none => none
      | some (.error e) => some (.error e)
      | some (.ok upstream) => _parse_repository_from_dict repo hostname (some upstream)
    else
      _parse_repository_from_dict repo hostname none

/-- Modelled from the spec: `PullRequestId` of `.pullrequest` (not under
`src/`) — "**PullRequestReference** — a (hostname, owner, name, number)
tuple identifying a pull request before its internal id is known". -/
structure PullRequestId where
  hostname : String
  owner : String
  name : String
  number : Int

/-- The `PullRequestDetails` dataclass. -/
structure PullRequestDetails where
  node_id : String
  number : Int
  url : String
  head_oid : String
  head_branch_name : String

/-- `get_pull_request_details(pr)`, applied to the transport's result for
the `GRAPHQL_GET_PULL_REQUEST` query. -/
def get_pull_request_details (pr : PullRequestId) (result : Result Json) :
    Option (Result PullRequestDetails) :=
  match result with
  | .error e => some (.error e)
  | .ok okVal => do
    let d ← okVal.get "data"
    let repo ← d.get "repository"
    let data ← repo.get "pullRequest"
    let idVal ← data.get "id"
    let urlVal ← data.get "url"
    let headOid ← data.get "headRefOid"
    let headRefName ← data.get "headRefName"
    some (.ok ⟨idVal.toStr, pr.number, urlVal.toStr, headOid.toStr, headRefName.toStr⟩)

/-- `_Params = Union[str, int, bool]`: one value of an outgoing request's
parameter dictionary. -/
inductive Param where
  | str : String → Param
  | int : Int → Param
  | bool : Bool → Param
deriving DecidableEq

/-- One call to the transport's `make_request(params, hostname, endpoint?)`. -/
structure Request where
  endpoint : Option String
  params : List (String × Param)
  hostname : String

/-- `create_pull_request_placeholder_issue(hostname, owner, name)`, applied
to the transport's result for the POST to `repos/<owner>/<name>/issues`.
Returns `result.ok["number"]` (the raw JSON value Python would return). -/
def create_pull_request_placeholder_issue (result : Result Json) :
    Option (Result Json) :=
  match result with
  | .error e => some (.error e)
  | .ok okVal => do
    let n ← okVal.get "number"
    some (.ok n)

/-- The endpoint string `f"repos/\x7bowner\x7d/\x7bname\x7d/pulls"`. -/
def create_pull_request_endpoint (owner name : String) : String :=
  "repos/" ++ owner ++ "/" ++ name ++ "/pulls"

/-- The parameter dictionary `create_pull_request` sends. -/
def create_pull_request_params (base head body : String) (issue : Int)
    (is_draft : Bool) : List (String × Param) :=
  [("base", .str base), ("head", .str head), ("body", .str body),
   ("issue", .int issue), ("draft", .bool is_draft)]

/-- `create_pull_request(hostname, owner, name, base, head, body, issue,
is_draft)`: issues exactly one transport request and returns its raw
result. The transport is an oracle argument; the first component of the
returned pair is the list of requests issued, in order. -/
def create_pull_request (hostname owner name base head body : String)
    (issue : Int) (is_draft : Bool) (transport : Request → Result Json) :
    List Request × Result Json :=
  let req : Request :=
    ⟨some (create_pull_request_endpoint owner name),
     create_pull_request_params base head body issue is_draft, hostname⟩
  ([req], transport req)

/-- `update_pull_request(hostname, node_id, title, body)`, applied to the
transport's result for the `GRAPHQL_UPDATE_PULL_REQUEST` mutation.
`node_id` enters only the outgoing parameters; the success payload is read
back from the response. -/
def update_pull_request (hostname node_id title body : String)
    (result : Result Json) : Option (Result String) :=
  match result with
  | .error e => some (.error e)
  | .ok okVal => do
    let d ← okVal.get "data"
    let upr ← d.get "updatePullRequest"
    let pr ← upr.get "pullRequest"
    let idVal ← pr.get "id"
    some (.ok idVal.toStr)

/-- `create_branch(hostname, repo_id, branch_name, oid)`, applied to the
transport's result for the `GRAPHQL_CREATE_BRANCH` mutation. -/
def create_branch (result : Result Json) : Option (Result String) :=
  match result with
  | .error e => some (.error e)
  | .ok okVal => do
    let d ← okVal.get "data"
    let cr ← d.get "createRef"
    let r ← cr.get "ref"
    let idVal ← r.get "id"
    some (.ok idVal.toStr)

/-- `merge_into_branch(hostname, repo_id, oid_to_merge, branch_name)`,
applied to the transport's result for the `GRAPHQL_MERGE_BRANCH` mutation. -/
def merge_into_branch (result : Result Json) : Option (Result String) :=
  match result with
  | .error e => some (.error e)
  | .ok okVal => do
    let d ← okVal.get "data"
    let mb ← d.get "mergeBranch"
    let mc ← mb.get "mergeCommit"
    let oid ← mc.get "oid"
    some (.ok oid.toStr)

/-- `get_username(hostname)`, applied to the transport's result for the
`GRAPHQL_GET_LOGIN` query. -/
def get_username (result : Result Json) : Option (Result String) :=
  match result with
  | .error e => some (.error e)
  | .ok okVal => do
    let d ← okVal.get "data"
    let v ← d.get "viewer"
    let login ← v.get "login"
    some (.ok login.toStr)

/-!
Schema-conforming responses. The `GRAPHQL_GET_REPOSITORY` query selects,
for the repository and for its parent, the fields `id`, `owner { login }`,
`name`, `defaultBranchRef { name }` (null for an empty repository) and
`isFork`; the parent itself is selected one level deep only, so the parent
object carries no `parent` field. The builders below enumerate exactly the
responses of that shape, with arbitrary field values.
-/

/-- The scalar fields of one repository object in a service response;
`defaultBranch = none` renders as `"defaultBranchRef": null`. -/
structure RepoFields where
  id : String
  owner : String
  name : String
  defaultBranch : Option String
  isFork : Bool

/-- The JSON rendering of a `defaultBranchRef` field. -/
def branchRefJson : Option String → Json
  | some b => .obj [("name", .str b)]
  | none => .null

/-- The JSON object for one repository, without a `parent` field (the
shape in which a parent repository appears in the response). -/
def RepoFields.toJson (r : RepoFields) : Json :=
  .obj [("id", .str r.id),
        ("owner", .obj [("login", .str r.owner)]),
        ("name", .str r.name),
        ("defaultBranchRef", branchRefJson r.defaultBranch),
        ("isFork", .bool r.isFork)]

/-- A full `GRAPHQL_GET_REPOSITORY` success response: the target
repository's fields plus its `parent` field (null when absent). -/
def mkRepoResponse (repo : RepoFields) (parent : Option RepoFields) : Json :=
  .obj [("data", .obj [("repository",
    .obj [("id", .str repo.id),
          ("owner", .obj [("login", .str repo.owner)]),
          ("name", .str repo.name),
          ("defaultBranchRef", branchRefJson repo.defaultBranch),
          ("isFork", .bool repo.isFork),
          ("parent", match parent with
                     | some p => p.toJson
                     | none => .null)])])]

/-- A schema-conforming `GRAPHQL_GET_PULL_REQUEST` success response. -/
def mkPullRequestResponse (id url headRefOid headRefName : String) : Json :=
  .obj [("data", .obj [("repository", .obj [("pullRequest",
    .obj [("id", .str id), ("url", .str url),
          ("headRefOid", .str headRefOid),
          ("headRefName", .str headRefName)])])])]

/-- A schema-conforming response for the placeholder-issue POST. -/
def mkNumberResponse (n : Int) : Json :=
  .obj [("number", .num n)]

/-- A schema-conforming `GRAPHQL_UPDATE_PULL_REQUEST` success response
whose echoed pull-request id is `id`. -/
def mkUpdatePullRequestResponse (id : String) : Json :=
  .obj [("data", .obj [("updatePullRequest", .obj [("pullRequest",
    .obj [("id", .str id)])])])]

/-- A schema-conforming `GRAPHQL_CREATE_BRANCH` success response. -/
def mkCreateBranchResponse (refId : String) : Json :=
  .obj [("data", .obj [("createRef", .obj [("ref",
    .obj [("id", .str refId)])])])]

/-- A schema-conforming `GRAPHQL_MERGE_BRANCH` success response. -/
def mkMergeBranchResponse (oid : String) : Json :=
  .obj [("data", .obj [("mergeBranch", .obj [("mergeCommit",
    .obj [("oid", .str oid)])])])]

/-- A schema-conforming `GRAPHQL_GET_LOGIN` success response. -/
def mkViewerResponse (login : String) : Json :=
  .obj [("data", .obj [("viewer", .obj [("login", .str login)])])]

/-- `ContainsStr s sub`: `sub` occurs as a contiguous substring of `s`. -/
def ContainsStr (s sub : String) : Prop :=
  ∃ a b, s = a ++ sub ++ b

theorem containsStr_appendContext (s sub pre post : String)
    (h : ContainsStr s sub) : ContainsStr (pre ++ s ++ post) sub := by
  obtain ⟨a, b, rfl⟩ := h
  exact ⟨pre ++ a, b ++ post, by simp [String.append_assoc]⟩

theorem noBranchErrorMessage_contains_hostname (hostname owner name : String) :
    ContainsStr (noBranchErrorMessage hostname owner name) hostname := by
  refine ⟨"This repository has no default branch. This is likely because it is empty.\n\nConsider using " ++ "https://",
    "/" ++ owner ++ "/" ++ name ++ "/new/main" ++ " to initialize your\nrepository.\n", ?_⟩
  simp only [noBranchErrorMessage, initUrl, String.append_assoc]

theorem noBranchErrorMessage_contains_owner (hostname owner name : String) :
    ContainsStr (noBranchErrorMessage hostname owner name) owner := by
  refine ⟨"This repository has no default branch. This is likely because it is empty.\n\nConsider using " ++ "https://" ++ hostname ++ "/",
    "/" ++ name ++ "/new/main" ++ " to initialize your\nrepository.\n", ?_⟩
  simp only [noBranchErrorMessage, initUrl, String.append_assoc]

theorem noBranchErrorMessage_contains_name (hostname owner name : String) :
    ContainsStr (noBranchErrorMessage hostname owner name) name := by
  refine ⟨"This repository has no default branch. This is likely because it is empty.\n\nConsider using " ++ "https://" ++ hostname ++ "/" ++ owner ++ "/",
    "/new/main" ++ " to initialize your\nrepository.\n", ?_⟩
  simp only [noBranchErrorMessage, initUrl, String.append_assoc]

theorem noBranchErrorMessage_contains_initialize (hostname owner name : String) :
    ContainsStr (noBranchErrorMessage hostname owner name) "initialize" := by
  refine ⟨"This repository has no default branch. This is likely because it is empty.\n\nConsider using " ++ initUrl hostname owner name ++ " to ",
    " your\nrepository.\n", ?_⟩
  simp [noBranchErrorMessage, String.append_assoc]

/-- C1 (counterexample): a schema-conforming `GRAPHQL_GET_REPOSITORY`
response carrying `isFork = false` together with a non-null, resolvable
`parent` makes `get_repository` return a success `Repository` whose
`is_fork` is `false` while `upstream` is present — refuting the claim that
`is_fork = false` implies `upstream` is absent on every well-formed
response. -/
theorem get_repository_is_fork_false_upstream_present :
    get_repository "github.com"
      (.ok (mkRepoResponse ⟨"R1", "alice", "widgets", some "main", false⟩
        (some ⟨"R0", "bob", "widgets", some "main", false⟩)))
      = some (.ok (.mk "R1" "github.com" "alice" "widgets" "main" false
          (some (.mk "R0" "github.com" "bob" "widgets" "main" false none))))
    ∧ (Repository.mk "R1" "github.com" "alice" "widgets" "main" false
        (some (.mk "R0" "github.com" "bob" "widgets" "main" false none))).is_fork = false
    ∧ (Repository.mk "R1" "github.com" "alice" "widgets" "main" false
        (some (.mk "R0" "github.com" "bob" "widgets" "main" false none))).upstream.isSome
        = true :=
  ⟨rfl, rfl, rfl⟩

/-- C1 (amended): `get_repository` keys `upstream` on the presence of the
response's `parent` object, not on the `isFork` flag. For every
schema-conforming response whose `parent` is null, a returned success
`Repository` with `is_fork = false` has `upstream` absent; the original
invariant holds only for responses in which a non-fork never carries a
parent object. -/
theorem get_repository_upstream_none_of_parent_null (hostname : String)
    (repo : RepoFields) (r : Repository)
    (h : get_repository hostname (.ok (mkRepoResponse repo none)) = some (.ok r))
    (hf : r.is_fork = false) : r.upstream = none := by
  obtain ⟨i, o, n, db, f⟩ := repo
  cases db with
  | none =>
    rw [show get_repository hostname (.ok (mkRepoResponse ⟨i, o, n, none, f⟩ none))
        = some (.error (noBranchErrorMessage hostname o n)) from rfl] at h
    simp at h
  | some b =>
    rw [show get_repository hostname (.ok (mkRepoResponse ⟨i, o, n, some b, f⟩ none))
        = some (.ok (.mk i hostname o n b f none)) from rfl] at h
    simp only [Option.some.injEq, Result.ok.injEq] at h
    subst h
    rfl

/-- C1 (witness for the amended theorem). -/
theorem get_repository_upstream_none_of_parent_null_witness :
    (Repository.mk "R1" "github.com" "alice" "widgets" "main" false none).upstream
      = none :=
  get_repository_upstream_none_of_parent_null "github.com"
    ⟨"R1", "alice", "widgets", some "main", false⟩
    (.mk "R1" "github.com" "alice" "widgets" "main" false none) rfl rfl

/-- C2: `get_base_branch` returns the upstream's `default_branch` and
`get_upstream_owner_and_name` returns the upstream's `(owner, name)`
whenever `upstream` is present, and the repository's own values otherwise;
for a fork with a resolved upstream the derived values are always read
from the upstream record, never from the fork's own fields. -/
theorem repository_derived_operations (r : Repository) :
    (∀ u, r.upstream = some u →
      r.get_base_branch = u.default_branch ∧
      r.get_upstream_owner_and_name = (u.owner, u.name)) ∧
    (r.upstream = none →
      r.get_base_branch = r.default_branch ∧
      r.get_upstream_owner_and_name = (r.owner, r.name)) := by
  constructor
  · intro u hu
    constructor
    · simp [Repository.get_base_branch, hu]
    · simp [Repository.get_upstream_owner_and_name, hu]
  · intro hu
    constructor
    · simp [Repository.get_base_branch, hu]
    · simp [Repository.get_upstream_owner_and_name, hu]

/-- C2 (witness): a fork with a resolved upstream derives the upstream's
branch and owner/name, and a plain repository derives its own. -/
theorem repository_derived_operations_witness :
    ((Repository.mk "R1" "github.com" "alice" "widgets" "fork-main" true
        (some (.mk "R0" "github.com" "bob" "gadgets" "trunk" false none))).get_base_branch
      = "trunk"
    ∧ (Repository.mk "R1" "github.com" "alice" "widgets" "fork-main" true
        (some (.mk "R0" "github.com" "bob" "gadgets" "trunk" false none))).get_upstream_owner_and_name
      = ("bob", "gadgets")) :=
  (repository_derived_operations
    (.mk "R1" "github.com" "alice" "widgets" "fork-main" true
      (some (.mk "R0" "github.com" "bob" "gadgets" "trunk" false none)))).1
    (.mk "R0" "github.com" "bob" "gadgets" "trunk" false none) rfl

/-- C3: on every schema-conforming response whose target repository has a
null `defaultBranchRef`, `get_repository` returns an error Result — never
a success — and the message is the no-default-branch message for the
affected repository (the target, or the parent when the parent is present
and also lacks a default branch, since the parent is validated first),
containing that repository's owner and name and the hostname and
suggesting initialization. -/
theorem get_repository_error_on_missing_default_branch
    (hostname i o n : String) (f : Bool) (parent : Option RepoFields) :
    ∃ ao an,
      get_repository hostname (.ok (mkRepoResponse ⟨i, o, n, none, f⟩ parent))
        = some (.error (noBranchErrorMessage hostname ao an))
      ∧ ContainsStr (noBranchErrorMessage hostname ao an) hostname
      ∧ ContainsStr (noBranchErrorMessage hostname ao an) ao
      ∧ ContainsStr (noBranchErrorMessage hostname ao an) an
      ∧ ContainsStr (noBranchErrorMessage hostname ao an) "initialize"
      ∧ ((ao = o ∧ an = n)
         ∨ ∃ p, parent = some p ∧ p.defaultBranch = none
             ∧ ao = p.owner ∧ an = p.name) := by
  cases parent with
  | none =>
    exact ⟨o, n, rfl, noBranchErrorMessage_contains_hostname hostname o n,
      noBranchErrorMessage_contains_owner hostname o n,
      noBranchErrorMessage_contains_name hostname o n,
      noBranchErrorMessage_contains_initialize hostname o n, .inl ⟨rfl, rfl⟩⟩
  | some p =>
    obtain ⟨pId, pOwner, pName, pdb, pFork⟩ := p
    cases pdb with
    | none =>
      exact ⟨pOwner, pName, rfl,
        noBranchErrorMessage_contains_hostname hostname pOwner pName,
        noBranchErrorMessage_contains_owner hostname pOwner pName,
        noBranchErrorMessage_contains_name hostname pOwner pName,
        noBranchErrorMessage_contains_initialize hostname pOwner pName,
        .inr ⟨⟨pId, pOwner, pName, none, pFork⟩, rfl, rfl, rfl, rfl⟩⟩
    | some pb =>
      exact ⟨o, n, rfl, noBranchErrorMessage_contains_hostname hostname o n,
        noBranchErrorMessage_contains_owner hostname o n,
        noBranchErrorMessage_contains_name hostname o n,
        noBranchErrorMessage_contains_initialize hostname o n, .inl ⟨rfl, rfl⟩⟩

/-- C4: when the response's parent object is present but the parent's
`defaultBranchRef` is null, `get_repository` returns exactly the Result
that `_parse_repository_from_dict` produces for the parent, and that
Result is the parent's no-default-branch error — the whole resolution
fails instead of returning a Repository without an upstream. -/
theorem get_repository_propagates_parent_error
    (hostname : String) (repo : RepoFields) (pId pOwner pName : String)
    (pFork : Bool) :
    get_repository hostname
      (.ok (mkRepoResponse repo (some ⟨pId, pOwner, pName, none, pFork⟩)))
      = _parse_repository_from_dict
          (RepoFields.toJson ⟨pId, pOwner, pName, none, pFork⟩) hostname none
    ∧ _parse_repository_from_dict
        (RepoFields.toJson ⟨pId, pOwner, pName, none, pFork⟩) hostname none
      = some (.error (noBranchErrorMessage hostname pOwner pName)) :=
  ⟨rfl, rfl⟩

/-- C5: on a successful resolution of a fork-of-a-fork (the parent object
in the response is itself marked `isFork = true`), the returned
Repository's `upstream` is present but carries no `upstream` of its own:
exactly one level of fork ancestry is traversed. -/
theorem get_repository_fork_of_fork_one_level
    (hostname : String) (repo : RepoFields) (pId pOwner pName pBranch : String)
    (r : Repository)
    (h : get_repository hostname
      (.ok (mkRepoResponse repo (some ⟨pId, pOwner, pName, some pBranch, true⟩)))
      = some (.ok r)) :
    ∃ u, r.upstream = some u ∧ u.is_fork = true ∧ u.upstream = none := by
  obtain ⟨i, o, n, db, f⟩ := repo
  cases db with
  | none =>
    rw [show get_repository hostname
        (.ok (mkRepoResponse ⟨i, o, n, none, f⟩
          (some ⟨pId, pOwner, pName, some pBranch, true⟩)))
        = some (.error (noBranchErrorMessage hostname o n)) from rfl] at h
    simp at h
  | some b =>
    rw [show get_repository hostname
        (.ok (mkRepoResponse ⟨i, o, n, some b, f⟩
          (some ⟨pId, pOwner, pName, some pBranch, true⟩)))
        = some (.ok (.mk i hostname o n b f
            (some (.mk pId hostname pOwner pName pBranch true none)))) from rfl] at h
    simp only [Option.some.injEq, Result.ok.injEq] at h
    subst h
    exact ⟨.mk pId hostname pOwner pName pBranch true none, rfl, rfl, rfl⟩

/-- C5 (witness). -/
theorem get_repository_fork_of_fork_one_level_witness :
    ∃ u, (Repository.mk "R1" "github.com" "alice" "widgets" "main" true
        (some (.mk "R0" "github.com" "bob" "widgets" "trunk" true none))).upstream
        = some u ∧ u.is_fork = true ∧ u.upstream = none :=
  get_repository_fork_of_fork_one_level "github.com"
    ⟨"R1", "alice", "widgets", some "main", true⟩ "R0" "bob" "widgets" "trunk"
    (.mk "R1" "github.com" "alice" "widgets" "main" true
      (some (.mk "R0" "github.com" "bob" "widgets" "trunk" true none))) rfl

/-- C10: when both the target's and the parent's `defaultBranchRef` are
null, the error returned by `get_repository` is the one generated for the
parent — its message embeds the parent's owner and name, because the
parent is validated before the target. -/
theorem get_repository_parent_validated_first
    (hostname i1 o1 n1 : String) (f1 : Bool) (i2 o2 n2 : String) (f2 : Bool) :
    get_repository hostname
      (.ok (mkRepoResponse ⟨i1, o1, n1, none, f1⟩ (some ⟨i2, o2, n2, none, f2⟩)))
      = some (.error (noBranchErrorMessage hostname o2 n2))
    ∧ ContainsStr (noBranchErrorMessage hostname o2 n2) o2
    ∧ ContainsStr (noBranchErrorMessage hostname o2 n2) n2 :=
  ⟨rfl, noBranchErrorMessage_contains_owner hostname o2 n2,
    noBranchErrorMessage_contains_name hostname o2 n2⟩

/-- C6: every `create_pull_request` call sends exactly the request for
endpoint `repos/<owner>/<name>/pulls` whose parameter dictionary contains
the `issue` field set to the reserved issue number and no `title` field:
the issue/title mutual exclusivity holds on every call. -/
theorem create_pull_request_issue_without_title
    (hostname owner name base head body : String) (issue : Int)
    (is_draft : Bool) (transport : Request → Result Json) :
    (create_pull_request hostname owner name base head body issue is_draft
        transport).1
      = [⟨some (create_pull_request_endpoint owner name),
          create_pull_request_params base head body issue is_draft, hostname⟩]
    ∧ ("issue", Param.int issue)
        ∈ create_pull_request_params base head body issue is_draft
    ∧ (create_pull_request_params base head body issue is_draft).all
        (fun kv => kv.1 != "title") = true := by
  refine ⟨rfl, ?_, rfl⟩
  simp [create_pull_request_params]

/-- C7: `create_pull_request` issues exactly one transport request
whatever the transport's outcome, and returns the raw Result of that
request unchanged — no compensating call touching the phase-1 placeholder
issue is made on failure. -/
theorem create_pull_request_single_request_passthrough
    (hostname owner name base head body : String) (issue : Int)
    (is_draft : Bool) (transport : Request → Result Json) :
    (create_pull_request hostname owner name base head body issue is_draft
        transport).1.length = 1
    ∧ (create_pull_request hostname owner name base head body issue is_draft
        transport).2
      = transport ⟨some (create_pull_request_endpoint owner name),
          create_pull_request_params base head body issue is_draft, hostname⟩ :=
  ⟨rfl, rfl⟩

/-- C8 (counterexample): `update_pull_request` returns the pull-request id
read back from the service response, not the `node_id` argument; a
well-formed response echoing a different id makes the success payload
differ from the id that was passed in, refuting the claim that the echo
holds for every well-formed response. -/
theorem update_pull_request_echo_counterexample :
    update_pull_request "github.com" "PR_node_A" "new title" "new body"
      (.ok (mkUpdatePullRequestResponse "PR_node_B"))
      = some (.ok "PR_node_B")
    ∧ "PR_node_B" ≠ "PR_node_A" :=
  ⟨rfl, by decide⟩

/-- C8 (amended): on success `update_pull_request` returns the
`data.updatePullRequest.pullRequest.id` field of the service response; it
equals the `node_id` that was passed in exactly when the service echoes
that id back, which the code does not enforce. -/
theorem update_pull_request_returns_response_id
    (hostname node_id title body echoedId : String) :
    update_pull_request hostname node_id title body
      (.ok (mkUpdatePullRequestResponse echoedId)) = some (.ok echoedId) :=
  rfl

/-- C9 (counterexample): on a success response whose
`data.repository` field is null, `get_repository` subscripts a `None`
value (`repo["parent"]`), which raises in Python — modelled by the
embedding returning `none` instead of a Result — refuting the claim that
every operation returns a Result on every transport response. -/
theorem get_repository_raises_on_null_repository :
    get_repository "github.com"
      (.ok (.obj [("data", .obj [("repository", Json.null)])])) = none :=
  rfl

/-- C9 (amended): every operation passes a transport error Result through
unchanged and returns a Result on every schema-conforming success
response; only a success response that violates the query's schema
(missing or null nested fields) makes an operation raise. -/
theorem operations_return_result_on_conforming_responses :
    (∀ hostname e, get_repository hostname (.error e) = some (.error e))
    ∧ (∀ hostname repo parent,
        (get_repository hostname (.ok (mkRepoResponse repo parent))).isSome
          = true)
    ∧ (∀ pr e, get_pull_request_details pr (.error e) = some (.error e))
    ∧ (∀ pr id url oid branch,
        get_pull_request_details pr (.ok (mkPullRequestResponse id url oid branch))
          = some (.ok ⟨id, pr.number, url, oid, branch⟩))
    ∧ (∀ e, create_pull_request_placeholder_issue (.error e) = some (.error e))
    ∧ (∀ n, create_pull_request_placeholder_issue (.ok (mkNumberResponse n))
          = some (.ok (.num n)))
    ∧ (∀ hostname node_id title body e,
        update_pull_request hostname node_id title body (.error e)
          = some (.error e))
    ∧ (∀ hostname node_id title body id,
        update_pull_request hostname node_id title body
          (.ok (mkUpdatePullRequestResponse id)) = some (.ok id))
    ∧ (∀ e, create_branch (.error e) = some (.error e))
    ∧ (∀ refId, create_branch (.ok (mkCreateBranchResponse refId))
          = some (.ok refId))
    ∧ (∀ e, merge_into_branch (.error e) = some (.error e))
    ∧ (∀ oid, merge_into_branch (.ok (mkMergeBranchResponse oid))
          = some (.ok oid))
    ∧ (∀ e, get_username (.error e) = some (.error e))
    ∧ (∀ login, get_username (.ok (mkViewerResponse login)) = some (.ok login)) := by
  refine ⟨fun _ _ => rfl, ?_, fun _ _ => rfl, fun _ _ _ _ _ => rfl, fun _ => rfl,
    fun _ => rfl, fun _ _ _ _ _ => rfl, fun _ _ _ _ _ => rfl, fun _ => rfl,
    fun _ => rfl, fun _ => rfl, fun _ => rfl, fun _ => rfl, fun _ => rfl⟩
  intro hostname repo parent
  obtain ⟨i, o, n, db, f⟩ := repo
  cases parent with
  | none => cases db <;> rfl
  | some p =>
    obtain ⟨pId, pOwner, pName, pdb, pFork⟩ := p
    cases pdb <;> cases db <;> rfl
